import Mathlib

/-!
Verification development for the PhotoEvent Pro repository.

The repository under review ships the React frontend (LoginPage, RegisterPage,
DashboardPage, EventDetailPage, CustomerEventPage). The Photo-Identity Matching
Engine described by the specification (Face Locator, Descriptor Extractor,
Event Index, Matcher, Ingestion Pipeline, Query Pipeline) is exercised by the
frontend through HTTP calls but its implementation is not part of the source
tree; those components are modelled here directly from the specification text,
and each such definition is marked `Modelled from the spec:`. The frontend
state transitions (upload handling, selfie search, lightbox navigation, gallery
display selection) are embedded from the JavaScript source.
-/

namespace PhotoEngine

/-- Modelled from the spec: a face bounding box inside a source photo
(spec 3, Face Descriptor; the Event Index component is absent from src). -/
structure BBox where
  x : Nat
  y : Nat
  w : Nat
  hgt : Nat
deriving DecidableEq

/-- Modelled from the spec: a fixed-length face descriptor together with its
bounding box (spec 3). -/
structure FaceDescriptor where
  vector : List Int
  box : BBox
deriving DecidableEq

/-- Modelled from the spec: a Photo Record owned by the Event Index, one per
uploaded image; `faces` may be empty (spec 3). -/
structure PhotoRec where
  photo_id : Nat
  faces : List FaceDescriptor
deriving DecidableEq

/-- Modelled from the spec: decoded grayscale pixel data of an image
(spec 4.1); row-major pixel list of length `width * height`. -/
structure Image where
  width : Nat
  height : Nat
  pixels : List Nat
deriving DecidableEq

/-- Modelled from the spec: the engine's error taxonomy (spec 7). -/
inductive EngineError where
  | decodeError
  | invalidRegion
  | noFaceDetected
  | unknownEvent
deriving DecidableEq

/-- Modelled from the spec: per-photo ingestion outcome (spec 6). -/
inductive Outcome where
  | Indexed
  | Skipped
  | Failed (reason : EngineError)
deriving DecidableEq

/-- Whether an outcome is the terminal `Failed` state. -/
def Outcome.isFailed : Outcome → Bool
  | .Failed _ => true
  | _ => false

/-- Modelled from the spec: decoding of raw image bytes; the byte layout is
width, height, then exactly `width * height` pixel values, anything else is
undecodable (spec 4.1, DecodeError). -/
def decode (bytes : List Nat) : Option Image :=
  match bytes with
  | w :: hgt :: px =>
    if 0 < w ∧ 0 < hgt ∧ px.length = w * hgt then some ⟨w, hgt, px⟩ else none
  | _ => none

/-- Pixel lookup in original-image coordinates. -/
def pixelAt (img : Image) (x y : Nat) : Nat :=
  img.pixels.getD (y * img.width + x) 0

/-- Modelled from the spec: tunable face-detection brightness threshold, a
constant rather than an inline literal (spec 4.1, 9). -/
def faceThreshold : Nat := 200

/-- Modelled from the spec: the Face Locator; returns an empty sequence, never
an error, when no face is found (spec 4.1). Positions whose brightness reaches
`faceThreshold` are reported as unit boxes in original-image coordinates. -/
def locate (img : Image) : List BBox :=
  (List.range (img.width * img.height)).filterMap fun i =>
    if faceThreshold ≤ img.pixels.getD i 0 then
      some ⟨i % img.width, i / img.width, 1, 1⟩
    else none

/-- Modelled from the spec: the process-wide fixed descriptor length (spec 3). -/
def descriptorLength : Nat := 4

/-- The pixel values of the cropped region of a bounding box. -/
def cropVals (img : Image) (b : BBox) : List Nat :=
  (List.range (b.w * b.hgt)).map fun i =>
    pixelAt img (b.x + i % b.w) (b.y + i / b.w)

/-- Modelled from the spec: the Descriptor Extractor; a deterministic,
reproducible transform of the cropped region into a fixed-length vector,
failing with `InvalidRegionError` when the box lies outside the image bounds or
has zero area (spec 4.2). -/
def extract (img : Image) (b : BBox) : Except EngineError FaceDescriptor :=
  if 0 < b.w ∧ 0 < b.hgt ∧ b.x + b.w ≤ img.width ∧ b.y + b.hgt ≤ img.height then
    Except.ok
      ⟨[(cropVals img b).foldl (· + ·) 0, (cropVals img b).length,
        (cropVals img b).foldl max 0, (cropVals img b).foldl min 255].map Int.ofNat,
       b⟩
  else
    Except.error .invalidRegion

/-- Modelled from the spec: distance between two descriptor vectors converted
to a 0-100 integer similarity score by a fixed monotone mapping (spec 4.4). -/
def similarity (v1 v2 : List Int) : Nat :=
  100 - min 100 ((v1.zip v2).foldl (fun acc p => acc + (p.1 - p.2).natAbs) 0)

/-- Modelled from the spec: a photo's score is the maximum score over its own
descriptors; a photo with no descriptors has no score at all (spec 4.4). -/
def photoScore (q : List Int) (rec : PhotoRec) : Option Nat :=
  match rec.faces with
  | [] => none
  | f :: fs => some ((f :: fs).foldl (fun acc fd => max acc (similarity q fd.vector)) 0)

/-- Modelled from the spec: an ephemeral per-query Match Result (spec 3). -/
structure MatchResult where
  photo_id : Nat
  similarity_score : Nat
deriving DecidableEq

/-- Modelled from the spec: the result ordering — descending by score, ties
broken by ascending photo_id (spec 3, Match Result). -/
def matchRel (a b : MatchResult) : Prop :=
  b.similarity_score < a.similarity_score ∨
    (a.similarity_score = b.similarity_score ∧ a.photo_id ≤ b.photo_id)

instance : DecidableRel matchRel := fun a b => by
  unfold matchRel
  exact inferInstance

instance : IsTotal MatchResult matchRel where
  total a b := by unfold matchRel; omega

instance : IsTrans MatchResult matchRel where
  trans a b c hab hbc := by
    unfold matchRel at hab hbc ⊢
    omega

/-- Modelled from the spec: tunable minimum similarity threshold (spec 4.4). -/
def matchThreshold : Nat := 50

/-- Modelled from the spec: the per-record step of the Matcher scan — the
photo's best score when it clears the threshold, nothing otherwise (spec 4.4). -/
def candidateOf (q : List Int) (thr : Nat) (rec : PhotoRec) : Option MatchResult :=
  match photoScore q rec with
  | none => none
  | some s => if thr ≤ s then some ⟨rec.photo_id, s⟩ else none

/-- Modelled from the spec: the thresholded linear scan of a snapshot (spec 4.4). -/
def candidates (q : List Int) (snap : List PhotoRec) (thr : Nat) : List MatchResult :=
  snap.filterMap (candidateOf q thr)

/-- Modelled from the spec: the Matcher — linear scan, threshold filter, sort
descending by score with ascending photo_id tie-break; empty output, not an
error, when nothing clears the threshold (spec 4.4). -/
def matchPhotos (q : List Int) (snap : List PhotoRec) (thr : Nat) : List MatchResult :=
  (candidates q snap thr).insertionSort matchRel

/-- Modelled from the spec: Event Index `upsert` — replaces the Photo Record
holding the same photo_id, or inserts a new one (spec 4.3). -/
def upsert : List PhotoRec → PhotoRec → List PhotoRec
  | [], r => [r]
  | q :: rest, r => if q.photo_id = r.photo_id then r :: rest else q :: upsert rest r

/-- The photo_ids present in an index. -/
def ids (idx : List PhotoRec) : List Nat := idx.map (·.photo_id)

/-- Modelled from the spec: the per-photo stages Received, Decoded, Located and
Extracted of the Ingestion Pipeline (spec 4.5); `Except.ok []` encodes the
zero-faces case, and any stage failure carries its reason. -/
def processPhoto (bytes : List Nat) : Except EngineError (List FaceDescriptor) :=
  match decode bytes with
  | none => Except.error .decodeError
  | some img => (locate img).mapM (extract img)

/-- Modelled from the spec: the terminal state of one photo, a pure function of
that photo's bytes alone (spec 4.5). -/
def photoOutcome (bytes : List Nat) : Outcome :=
  match processPhoto bytes with
  | .error e => .Failed e
  | .ok [] => .Skipped
  | .ok (_ :: _) => .Indexed

/-- Modelled from the spec: ingestion of a single photo — a `Failed` photo is
excluded from the index, every other photo is upserted, with an empty
descriptor list when no face was found (spec 4.5). -/
def ingestOne (idx : List PhotoRec) (p : Nat × List Nat) : List PhotoRec × Outcome :=
  match processPhoto p.2 with
  | .error e => (idx, .Failed e)
  | .ok faces => (upsert idx ⟨p.1, faces⟩, if faces.isEmpty then .Skipped else .Indexed)

/-- Modelled from the spec: `ingest_batch` — processes each photo of the batch
independently and returns one per-photo outcome for every photo, never aborting
the batch (spec 4.5, 6). -/
def ingest_batch (idx : List PhotoRec) (batch : List (Nat × List Nat)) :
    List PhotoRec × List Outcome :=
  match batch with
  | [] => (idx, [])
  | p :: rest =>
    let step := ingestOne idx p
    let restRun := ingest_batch step.1 rest
    (restRun.1, step.2 :: restRun.2)

/-- Modelled from the spec: the Query Pipeline `find_matches` (spec 4.6, 6) —
locate faces in the selfie, fail with `NoFaceDetectedError` on zero faces, use
the first detected face only, extract, then match against the event's index
snapshot with the configured threshold. -/
def find_matches (events : List (Nat × List PhotoRec)) (eid : Nat) (selfie : List Nat) :
    Except EngineError (List MatchResult) :=
  match events.lookup eid with
  | none => Except.error .unknownEvent
  | some idx =>
    match decode selfie with
    | none => Except.error .decodeError
    | some img =>
      match locate img with
      | [] => Except.error .noFaceDetected
      | b :: _ =>
        match extract img b with
        | .error e => Except.error e
        | .ok fd => Except.ok (matchPhotos fd.vector idx matchThreshold)

/-- Modelled from the spec: the Query Pipeline as a step on the shared engine
state — it computes its result from the current state and performs no writes
(spec 4.6, 5). -/
def queryStep (events : List (Nat × List PhotoRec)) (eid : Nat) (selfie : List Nat) :
    List (Nat × List PhotoRec) × Except EngineError (List MatchResult) :=
  (events, find_matches events eid selfie)

/-- Modelled from the spec: one interleaving step on a single event's index —
a writer atomically publishes one photo's completed record via `upsert`, or a
reader takes a snapshot; locking covers only this bookkeeping step (spec 5, 9). -/
inductive Step where
  | write (pid : Nat)
  | read

/-- Modelled from the spec: execution of an interleaved schedule of writers and
readers over one event's index, collecting the snapshot each reader observes;
`src pid` is the completed descriptor set of photo `pid` (spec 5). -/
def runSched (src : Nat → List FaceDescriptor) :
    List PhotoRec → List Step → List (List PhotoRec)
  | _, [] => []
  | st, .write pid :: rest => runSched src (upsert st ⟨pid, src pid⟩) rest
  | st, .read :: rest => st :: runSched src st rest

end PhotoEngine

namespace Frontend

/-- A photo object as the frontend receives it from the API (`id`, optional
`similarity` percentage on matched photos). -/
structure Photo where
  id : Nat
  similarity : Option Nat
deriving DecidableEq

/-- Component state of EventDetailPage relevant to upload handling. -/
structure EventDetailState where
  photos : List Photo
  photo_count : Nat
deriving DecidableEq

/-- The success path of `handleFileUpload` (EventDetailPage.js lines 79-81):
appends the response photos to the list and adds the response length to the
displayed `photo_count`, unconditionally. -/
def uploadSuccess (st : EventDetailState) (respData : List Photo) : EventDetailState :=
  ⟨st.photos ++ respData, st.photo_count + respData.length⟩

/-- Component state of CustomerEventPage relevant to search and the lightbox;
`matchedPhotos` is `none` for JS `null` and `some` for an array (arrays,
including the empty array, are truthy in JS). -/
structure CustomerState where
  photos : List Photo
  matchedPhotos : Option (List Photo)
  selectedPhoto : Option Photo
  searching : Bool
deriving DecidableEq

/-- `displayPhotos = matchedPhotos || photos` (CustomerEventPage.js line 108):
a non-null `matchedPhotos` array, even when empty, is truthy and wins. -/
def displayPhotos (st : CustomerState) : List Photo :=
  st.matchedPhotos.getD st.photos

/-- The success path of `handleFindMyPhotos` (CustomerEventPage.js lines 79-92):
stores the result array, possibly empty, in `matchedPhotos`. -/
def searchSuccess (st : CustomerState) (result : List Photo) : CustomerState :=
  { st with matchedPhotos := some result, searching := false }

/-- The error path of `handleFindMyPhotos` (CustomerEventPage.js lines 86-92):
`matchedPhotos` is left as it was. -/
def searchFailure (st : CustomerState) : CustomerState :=
  { st with searching := false }

/-- `clearSearch` (CustomerEventPage.js lines 95-97): resets `matchedPhotos` to
null, restoring the full gallery. -/
def clearSearch (st : CustomerState) : CustomerState :=
  { st with matchedPhotos := none }

/-- JS `Array.prototype.findIndex` on `p.id === targetId`: the index of the
first matching element, or -1 when none matches (CustomerEventPage.js line 101). -/
def jsFindIndex (l : List Photo) (targetId : Nat) : Int :=
  match l with
  | [] => -1
  | p :: rest =>
    if p.id = targetId then 0
    else if jsFindIndex rest targetId < 0 then -1 else jsFindIndex rest targetId + 1

/-- First clamp of `navigatePhoto` (line 103): `if (newIndex < 0) newIndex =
displayPhotos.length - 1`. -/
def jsClampLow (len : Nat) (n : Int) : Int :=
  if n < 0 then (len : Int) - 1 else n

/-- Second clamp of `navigatePhoto` (line 104): `if (newIndex >=
displayPhotos.length) newIndex = 0`. -/
def jsClampHigh (len : Nat) (n : Int) : Int :=
  if (len : Int) ≤ n then 0 else n

/-- The index arithmetic of `navigatePhoto` (CustomerEventPage.js lines 99-106):
the two clamps run in sequence on `currentIndex + direction`. -/
def navIndex (len : Nat) (cur d : Int) : Int :=
  jsClampHigh len (jsClampLow len (cur + d))

/-- `navigatePhoto` (CustomerEventPage.js lines 99-106): recomputes the index
within `displayPhotos` and selects `displayPhotos[newIndex]`. -/
def navigatePhoto (st : CustomerState) (d : Int) : CustomerState :=
  match st.selectedPhoto with
  | none => st
  | some sel =>
    { st with
      selectedPhoto :=
        some ((displayPhotos st).getD
          (navIndex (displayPhotos st).length
            (jsFindIndex (displayPhotos st) sel.id) d).toNat sel) }

/-- Which gallery branch CustomerEventPage renders (lines 227-241): the empty
state with the no-matching-photos message when `displayPhotos` is empty and
`matchedPhotos` is non-null, the no-photos-yet empty state when it is null,
and the photo grid otherwise. -/
inductive GalleryView where
  | noMatchesFound
  | noPhotosYet
  | grid
deriving DecidableEq

/-- The display branch selection of CustomerEventPage (lines 227-241). -/
def galleryView (st : CustomerState) : GalleryView :=
  if (displayPhotos st).isEmpty then
    if st.matchedPhotos.isSome then .noMatchesFound else .noPhotosYet
  else .grid

end Frontend

namespace PhotoEngine

/-- Test fixture: a 1x1 image byte stream whose single pixel is bright enough
for the locator to report a face. -/
def demoFaceBytes : List Nat := [1, 1, 255]

/-- Test fixture: a decodable 1x1 image byte stream with no detectable face. -/
def demoBlankBytes : List Nat := [1, 1, 0]

/-- Test fixture: an undecodable (corrupt) byte stream. -/
def demoCorruptBytes : List Nat := []

/-- Test fixture: the bounding box the locator reports on the bright demo image. -/
def demoBox : BBox := ⟨0, 0, 1, 1⟩

/-- Test fixture: the descriptor vector extract produces for the bright demo face. -/
def demoVec : List Int := [255, 1, 255, 255]

/-- Test fixture: the full face descriptor of the bright demo face. -/
def demoFd : FaceDescriptor := ⟨demoVec, demoBox⟩

/-- Test fixture: a 5-photo batch containing one corrupt image. -/
def demoBatch : List (Nat × List Nat) :=
  [(1, demoFaceBytes), (2, demoFaceBytes), (3, demoBlankBytes), (4, demoBlankBytes),
   (5, demoCorruptBytes)]

/-- Test fixture: a snapshot of two photos engineered to score equally. -/
def demoSnapTie : List PhotoRec := [⟨2, [demoFd]⟩, ⟨1, [demoFd]⟩]

/-- Test fixture: a completed-descriptor source publishing the demo face for
every photo. -/
def demoSrc : Nat → List FaceDescriptor := fun _ => [demoFd]

end PhotoEngine

namespace PhotoEngine

theorem upsert_idem (r : PhotoRec) : ∀ idx : List PhotoRec,
    upsert (upsert idx r) r = upsert idx r
  | [] => by simp [upsert]
  | q :: rest => by
    by_cases hq : q.photo_id = r.photo_id
    · simp [upsert, hq]
    · simp [upsert, hq, upsert_idem r rest]

theorem mem_of_mem_upsert (a r : PhotoRec) : ∀ idx : List PhotoRec,
    a ∈ upsert idx r → a ∈ idx ∨ a = r
  | [] => by simp [upsert]
  | q :: rest => by
    by_cases hq : q.photo_id = r.photo_id
    · simp only [upsert, if_pos hq, List.mem_cons]
      tauto
    · simp only [upsert, if_neg hq, List.mem_cons]
      intro h
      rcases h with h | h
      · tauto
      · rcases mem_of_mem_upsert a r rest h with h2 | h2 <;> tauto

theorem self_mem_upsert (r : PhotoRec) : ∀ idx : List PhotoRec, r ∈ upsert idx r
  | [] => by simp [upsert]
  | q :: rest => by
    by_cases hq : q.photo_id = r.photo_id <;>
      simp [upsert, hq, self_mem_upsert r rest]

theorem mem_ids_upsert_of_mem {n : Nat} (r : PhotoRec) : ∀ idx : List PhotoRec,
    n ∈ ids idx → n ∈ ids (upsert idx r)
  | [] => by simp [ids]
  | q :: rest => by
    intro h
    by_cases hq : q.photo_id = r.photo_id
    · simp only [ids, List.map_cons, List.mem_cons] at h
      simp only [upsert, if_pos hq, ids, List.map_cons, List.mem_cons]
      rcases h with h | h
      · exact Or.inl (h.trans hq)
      · exact Or.inr h
    · simp only [ids, List.map_cons, List.mem_cons] at h
      simp only [upsert, if_neg hq, ids, List.map_cons, List.mem_cons]
      rcases h with h | h
      · exact Or.inl h
      · exact Or.inr (mem_ids_upsert_of_mem r rest h)

theorem ingestOne_outcome (idx : List PhotoRec) (p : Nat × List Nat) :
    (ingestOne idx p).2 = photoOutcome p.2 := by
  unfold ingestOne photoOutcome
  cases h : processPhoto p.2 with
  | error e => rfl
  | ok faces => cases faces <;> rfl

theorem ingest_batch_outcomes : ∀ (batch : List (Nat × List Nat)) (idx : List PhotoRec),
    (ingest_batch idx batch).2 = batch.map (fun p => photoOutcome p.2)
  | [], _ => rfl
  | p :: rest, idx => by
    simp only [ingest_batch, List.map_cons]
    rw [ingestOne_outcome, ingest_batch_outcomes rest]

theorem mem_ids_ingestOne_of_mem {n : Nat} (idx : List PhotoRec) (p : Nat × List Nat)
    (h : n ∈ ids idx) : n ∈ ids (ingestOne idx p).1 := by
  unfold ingestOne
  cases hp : processPhoto p.2 with
  | error e => exact h
  | ok faces => exact mem_ids_upsert_of_mem _ idx h

theorem mem_ids_ingest_batch_of_mem : ∀ (batch : List (Nat × List Nat))
    (idx : List PhotoRec) {n : Nat}, n ∈ ids idx → n ∈ ids (ingest_batch idx batch).1
  | [], _, _, h => h
  | p :: rest, idx, n, h => by
    simp only [ingest_batch]
    exact mem_ids_ingest_batch_of_mem rest _ (mem_ids_ingestOne_of_mem idx p h)

theorem mem_ids_ingest_batch_of_ok : ∀ (batch : List (Nat × List Nat))
    (idx : List PhotoRec) (p : Nat × List Nat), p ∈ batch →
    (photoOutcome p.2).isFailed = false → p.1 ∈ ids (ingest_batch idx batch).1
  | [], _, p, hp, _ => absurd hp (List.not_mem_nil p)
  | q :: rest, idx, p, hp, hok => by
    simp only [ingest_batch]
    rcases List.mem_cons.mp hp with h | h
    · subst h
      apply mem_ids_ingest_batch_of_mem rest
      unfold ingestOne
      cases hpp : processPhoto p.2 with
      | error e =>
        exfalso
        unfold photoOutcome at hok
        rw [hpp] at hok
        simp [Outcome.isFailed] at hok
      | ok faces =>
        have hm := self_mem_upsert (PhotoRec.mk p.1 faces) idx
        simpa [ids] using List.mem_map_of_mem (fun r => r.photo_id) hm
    · exact mem_ids_ingest_batch_of_ok rest _ p h hok

theorem candidateOf_some {q : List Int} {thr : Nat} {rec : PhotoRec} {m : MatchResult}
    (h : candidateOf q thr rec = some m) :
    m.photo_id = rec.photo_id ∧ rec.faces ≠ [] := by
  unfold candidateOf at h
  cases hps : photoScore q rec with
  | none => rw [hps] at h; exact absurd h (by simp)
  | some s =>
    rw [hps] at h
    have h2 : (if thr ≤ s then some (MatchResult.mk rec.photo_id s) else none) = some m := h
    constructor
    · by_cases hth : thr ≤ s
      · rw [if_pos hth] at h2
        cases Option.some.inj h2
        rfl
      · rw [if_neg hth] at h2; exact absurd h2 (by simp)
    · intro hf
      unfold photoScore at hps
      rw [hf] at hps
      exact absurd hps (by simp)

theorem exists_of_mem_candidates {q : List Int} {snap : List PhotoRec} {thr : Nat}
    {m : MatchResult} (h : m ∈ candidates q snap thr) :
    ∃ rec, rec ∈ snap ∧ rec.photo_id = m.photo_id ∧ rec.faces ≠ [] := by
  obtain ⟨rec, hrec, hcand⟩ := List.mem_filterMap.mp h
  obtain ⟨hid, hne⟩ := candidateOf_some hcand
  exact ⟨rec, hrec, hid.symm, hne⟩

theorem mem_candidates_of_mem_matchPhotos {q : List Int} {snap : List PhotoRec}
    {thr : Nat} {m : MatchResult} (h : m ∈ matchPhotos q snap thr) :
    m ∈ candidates q snap thr :=
  (List.perm_insertionSort matchRel _).mem_iff.mp h

theorem candidates_ids_sublist (q : List Int) (thr : Nat) : ∀ snap : List PhotoRec,
    List.Sublist ((candidates q snap thr).map (fun m => m.photo_id)) (ids snap)
  | [] => List.Sublist.slnil
  | rec :: rest => by
    have ih := candidates_ids_sublist q thr rest
    simp only [candidates, ids, List.map_cons] at ih ⊢
    rw [List.filterMap_cons]
    cases hf : candidateOf q thr rec with
    | none => exact ih.cons _
    | some m =>
      simp only [List.map_cons]
      rw [(candidateOf_some hf).1]
      exact ih.cons₂ _

theorem matchPhotos_sorted (q : List Int) (snap : List PhotoRec) (thr : Nat) :
    List.Sorted matchRel (matchPhotos q snap thr) :=
  List.sorted_insertionSort matchRel _

theorem runSched_inv (src : Nat → List FaceDescriptor) :
    ∀ (sched : List Step) (st : List PhotoRec),
      (∀ r ∈ st, r.faces = src r.photo_id) →
      ∀ snap ∈ runSched src st sched, ∀ rec ∈ snap, rec.faces = src rec.photo_id
  | [], st, hst => by simp [runSched]
  | .write pid :: rest, st, hst => by
    simp only [runSched]
    apply runSched_inv src rest
    intro r hr
    rcases mem_of_mem_upsert r ⟨pid, src pid⟩ st hr with h | h
    · exact hst r h
    · subst h; rfl
  | .read :: rest, st, hst => by
    simp only [runSched]
    intro snap hsnap
    rcases List.mem_cons.mp hsnap with h | h
    · subst h; exact hst
    · exact runSched_inv src rest st hst snap h

end PhotoEngine

namespace Frontend

theorem navIndex_bounds (len : Nat) (cur d : Int) (hlen : 1 ≤ len) :
    0 ≤ navIndex len cur d ∧ navIndex len cur d < (len : Int) := by
  unfold navIndex jsClampLow jsClampHigh
  split_ifs <;> omega

theorem jsFindIndex_range (targetId : Nat) : ∀ l : List Photo,
    -1 ≤ jsFindIndex l targetId ∧ jsFindIndex l targetId < (l.length : Int)
  | [] => by simp [jsFindIndex]
  | p :: rest => by
    have ih := jsFindIndex_range targetId rest
    simp only [jsFindIndex, List.length_cons]
    split_ifs <;> omega

end Frontend

namespace PhotoEngine

theorem ingestOne_idem (idx : List PhotoRec) (p : Nat × List Nat) :
    (ingestOne (ingestOne idx p).1 p).1 = (ingestOne idx p).1 := by
  unfold ingestOne
  cases h : processPhoto p.2 with
  | error e => rfl
  | ok faces => exact upsert_idem _ idx

theorem ingest_single_idem (idx : List PhotoRec) (pid : Nat) (bytes : List Nat) :
    (ingest_batch (ingest_batch idx [(pid, bytes)]).1 [(pid, bytes)]).1 =
      (ingest_batch idx [(pid, bytes)]).1 := by
  simp only [ingest_batch]
  exact ingestOne_idem idx (pid, bytes)

end PhotoEngine

/-- Claim C1, counterexample: re-ingesting photo_id 1 with the same bytes leaves
the engine index unchanged, yet the EventDetailPage upload handler increments
the displayed photo count on the re-upload response (from 1 to 2), so the
displayed photo count is not left unchanged as the claim states. -/
theorem upload_repeat_count_counterexample :
    (PhotoEngine.ingest_batch (PhotoEngine.ingest_batch [] [(1, PhotoEngine.demoFaceBytes)]).1
        [(1, PhotoEngine.demoFaceBytes)]).1 =
      (PhotoEngine.ingest_batch [] [(1, PhotoEngine.demoFaceBytes)]).1 ∧
    (Frontend.uploadSuccess ⟨[⟨1, none⟩], 1⟩ [⟨1, none⟩]).photo_count ≠
      (Frontend.EventDetailState.mk [⟨1, none⟩] 1).photo_count :=
  ⟨by decide, by decide⟩

/-- Claim C1 (amended): repeating upsert with the same arguments leaves the
index unchanged, and re-ingesting a photo with the same photo_id and the same
bytes leaves the index (hence the index size) unchanged; the displayed photo
count, however, always grows by the length of the upload response, so it is not
unchanged on a re-upload. -/
theorem upsert_idempotent_index_unchanged (idx : List PhotoEngine.PhotoRec)
    (r : PhotoEngine.PhotoRec) (pid : Nat) (bytes : List Nat)
    (st : Frontend.EventDetailState) (respData : List Frontend.Photo) :
    PhotoEngine.upsert (PhotoEngine.upsert idx r) r = PhotoEngine.upsert idx r ∧
    (PhotoEngine.ingest_batch (PhotoEngine.ingest_batch idx [(pid, bytes)]).1
        [(pid, bytes)]).1 = (PhotoEngine.ingest_batch idx [(pid, bytes)]).1 ∧
    (Frontend.uploadSuccess st respData).photo_count = st.photo_count + respData.length :=
  ⟨PhotoEngine.upsert_idem r idx, PhotoEngine.ingest_single_idem idx pid bytes, rfl⟩

/-- Claim C2: ingest_batch returns one per-photo outcome for every photo of the
batch, each outcome a function of that photo's bytes alone, so a failure on one
photo is isolated to that photo and the batch call itself succeeds; moreover a
photo whose own outcome is not Failed ends up in the index. -/
theorem ingest_batch_isolates_failures (idx : List PhotoEngine.PhotoRec)
    (batch : List (Nat × List Nat)) (p : Nat × List Nat) (hp : p ∈ batch)
    (hok : (PhotoEngine.photoOutcome p.2).isFailed = false) :
    (PhotoEngine.ingest_batch idx batch).2 =
        batch.map (fun q => PhotoEngine.photoOutcome q.2) ∧
    (PhotoEngine.ingest_batch idx batch).2.length = batch.length ∧
    p.1 ∈ PhotoEngine.ids (PhotoEngine.ingest_batch idx batch).1 := by
  refine ⟨PhotoEngine.ingest_batch_outcomes batch idx, ?_, ?_⟩
  · rw [PhotoEngine.ingest_batch_outcomes batch idx, List.length_map]
  · exact PhotoEngine.mem_ids_ingest_batch_of_ok batch idx p hp hok

/-- Claim C2 witness: the 5-photo demo batch containing one corrupt image
yields two Indexed, two Skipped and one Failed outcome — the batch call
succeeds with a per-photo outcome for every photo — and photo 1 is indexed. -/
theorem ingest_batch_isolates_failures_witness :
    ((PhotoEngine.ingest_batch [] PhotoEngine.demoBatch).2 =
        PhotoEngine.demoBatch.map (fun q => PhotoEngine.photoOutcome q.2) ∧
      (PhotoEngine.ingest_batch [] PhotoEngine.demoBatch).2.length =
        PhotoEngine.demoBatch.length ∧
      (1 : Nat) ∈ PhotoEngine.ids (PhotoEngine.ingest_batch [] PhotoEngine.demoBatch).1) ∧
    (PhotoEngine.ingest_batch [] PhotoEngine.demoBatch).2 =
      [.Indexed, .Indexed, .Skipped, .Skipped, .Failed .decodeError] :=
  ⟨ingest_batch_isolates_failures [] PhotoEngine.demoBatch (1, PhotoEngine.demoFaceBytes)
      (by decide) (by decide), by decide⟩

/-- Claim C3: a selfie in which the Face Locator finds zero faces makes
find_matches fail with NoFaceDetectedError, and this typed failure is distinct
from every successful result, in particular from the successful empty match
list returned when no photo clears the threshold. -/
theorem find_matches_no_face_error (events : List (Nat × List PhotoEngine.PhotoRec))
    (eid : Nat) (idx : List PhotoEngine.PhotoRec) (selfie : List Nat)
    (img : PhotoEngine.Image) (h1 : events.lookup eid = some idx)
    (h2 : PhotoEngine.decode selfie = some img) (h3 : PhotoEngine.locate img = []) :
    PhotoEngine.find_matches events eid selfie = .error .noFaceDetected ∧
    ∀ res : List PhotoEngine.MatchResult,
      PhotoEngine.find_matches events eid selfie ≠ .ok res := by
  have hfm : PhotoEngine.find_matches events eid selfie = .error .noFaceDetected := by
    simp only [PhotoEngine.find_matches, h1, h2, h3]
  exact ⟨hfm, fun res hres => by rw [hfm] at hres; exact Except.noConfusion hres⟩

/-- Claim C3 witness: a blank selfie on a known event fails with
NoFaceDetectedError and is not any successful (empty) match list. -/
theorem find_matches_no_face_error_witness :
    PhotoEngine.find_matches [(7, [])] 7 PhotoEngine.demoBlankBytes =
        .error .noFaceDetected ∧
    ∀ res : List PhotoEngine.MatchResult,
      PhotoEngine.find_matches [(7, [])] 7 PhotoEngine.demoBlankBytes ≠ .ok res :=
  find_matches_no_face_error [(7, [])] 7 [] PhotoEngine.demoBlankBytes ⟨1, 1, [0]⟩
    (by decide) (by decide) (by decide)

/-- Claim C4: the Query Pipeline performs no writes to shared state — a query
step leaves the engine's event-index state exactly as it was, and the frontend
search handler (success path, error path, and the discarding clearSearch)
leaves the stored photo collection unchanged. -/
theorem query_pipeline_readonly (events : List (Nat × List PhotoEngine.PhotoRec))
    (eid : Nat) (selfie : List Nat) (st : Frontend.CustomerState)
    (result : List Frontend.Photo) :
    (PhotoEngine.queryStep events eid selfie).1 = events ∧
    (Frontend.searchSuccess st result).photos = st.photos ∧
    (Frontend.searchFailure st).photos = st.photos ∧
    (Frontend.clearSearch st).photos = st.photos :=
  ⟨rfl, rfl, rfl, rfl⟩

/-- Claim C5: when the snapshot's photo_ids are distinct, the sequence returned
by the Matcher is sorted in descending order of similarity score, with equal
scores ordered by (strictly) ascending photo_id. -/
theorem matchPhotos_sorted_desc (q : List Int) (snap : List PhotoEngine.PhotoRec)
    (thr : Nat) (hnd : (PhotoEngine.ids snap).Nodup) :
    (PhotoEngine.matchPhotos q snap thr).Pairwise (fun a b =>
      b.similarity_score < a.similarity_score ∨
        (a.similarity_score = b.similarity_score ∧ a.photo_id < b.photo_id)) := by
  have hsorted : (PhotoEngine.matchPhotos q snap thr).Pairwise PhotoEngine.matchRel :=
    PhotoEngine.matchPhotos_sorted q snap thr
  have hndc : ((PhotoEngine.candidates q snap thr).map (fun m => m.photo_id)).Nodup :=
    hnd.sublist (PhotoEngine.candidates_ids_sublist q thr snap)
  have hnec : (PhotoEngine.candidates q snap thr).Pairwise
      (fun a b => a.photo_id ≠ b.photo_id) := List.pairwise_map.mp hndc
  have hperm := List.perm_insertionSort PhotoEngine.matchRel
    (PhotoEngine.candidates q snap thr)
  have hne : (PhotoEngine.matchPhotos q snap thr).Pairwise
      (fun a b => a.photo_id ≠ b.photo_id) :=
    (hperm.pairwise_iff (fun hab => Ne.symm hab)).mpr hnec
  refine (hsorted.and hne).imp fun hab => ?_
  obtain ⟨hr, hne2⟩ := hab
  rcases hr with hlt | ⟨heq, hle⟩
  · exact Or.inl hlt
  · exact Or.inr ⟨heq, lt_of_le_of_ne hle hne2⟩

/-- Claim C5 witness: on the fixture snapshot with two photos engineered to
score equally, the results are ordered with the tie broken by ascending
photo_id. -/
theorem matchPhotos_sorted_desc_witness :
    (PhotoEngine.ids PhotoEngine.demoSnapTie).Nodup ∧
    (PhotoEngine.matchPhotos PhotoEngine.demoVec PhotoEngine.demoSnapTie 50).Pairwise
      (fun a b => b.similarity_score < a.similarity_score ∨
        (a.similarity_score = b.similarity_score ∧ a.photo_id < b.photo_id)) :=
  ⟨by decide,
    matchPhotos_sorted_desc PhotoEngine.demoVec PhotoEngine.demoSnapTie 50 (by decide)⟩

/-- Claim C6: a decoded photo in which the locator finds zero faces is marked
Skipped yet retained in the index with an empty descriptor list, and every
match returned by the Matcher corresponds to a snapshot record with a
non-empty descriptor list — so a zero-face photo never appears in any
find_matches result. -/
theorem zero_face_skipped_never_matched (idx : List PhotoEngine.PhotoRec) (pid : Nat)
    (bytes : List Nat) (img : PhotoEngine.Image) (q : List Int)
    (snap : List PhotoEngine.PhotoRec) (thr : Nat) (m : PhotoEngine.MatchResult)
    (h1 : PhotoEngine.decode bytes = some img) (h2 : PhotoEngine.locate img = [])
    (h3 : m ∈ PhotoEngine.matchPhotos q snap thr) :
    ((PhotoEngine.ingestOne idx (pid, bytes)).2 = .Skipped ∧
      PhotoEngine.PhotoRec.mk pid [] ∈ (PhotoEngine.ingestOne idx (pid, bytes)).1) ∧
    ∃ rec, rec ∈ snap ∧ rec.photo_id = m.photo_id ∧ rec.faces ≠ [] := by
  have hpp : PhotoEngine.processPhoto bytes = .ok [] := by
    simp only [PhotoEngine.processPhoto, h1, h2]
    rfl
  have hio : PhotoEngine.ingestOne idx (pid, bytes) =
      (PhotoEngine.upsert idx ⟨pid, []⟩, .Skipped) := by
    unfold PhotoEngine.ingestOne
    rw [show (pid, bytes).2 = bytes from rfl, hpp]
    rfl
  refine ⟨⟨by rw [hio], ?_⟩, ?_⟩
  · rw [hio]
    exact PhotoEngine.self_mem_upsert _ idx
  · obtain ⟨rec, hrec, hid, hne⟩ := PhotoEngine.exists_of_mem_candidates
      (PhotoEngine.mem_candidates_of_mem_matchPhotos h3)
    exact ⟨rec, hrec, hid, hne⟩

/-- Claim C6 witness: ingesting the blank demo photo marks it Skipped and keeps
it in the index with no descriptors, and the concrete match for photo 1 comes
from a record with a non-empty descriptor list. -/
theorem zero_face_skipped_never_matched_witness :
    ((PhotoEngine.ingestOne [] (3, PhotoEngine.demoBlankBytes)).2 = .Skipped ∧
      PhotoEngine.PhotoRec.mk 3 [] ∈ (PhotoEngine.ingestOne [] (3, PhotoEngine.demoBlankBytes)).1) ∧
    ∃ rec, rec ∈ PhotoEngine.demoSnapTie ∧
      rec.photo_id = (PhotoEngine.MatchResult.mk 1 100).photo_id ∧ rec.faces ≠ [] :=
  zero_face_skipped_never_matched [] 3 PhotoEngine.demoBlankBytes ⟨1, 1, [0]⟩
    PhotoEngine.demoVec PhotoEngine.demoSnapTie 50 ⟨1, 100⟩
    (by decide) (by decide) (by decide)

/-- Claim C7: extract is deterministic — two calls on byte-identical input
pixels with identical bounding boxes yield bit-identical descriptor vectors. -/
theorem extract_deterministic (img img2 : PhotoEngine.Image) (b b2 : PhotoEngine.BBox)
    (h1 : img = img2) (h2 : b = b2) :
    PhotoEngine.extract img b = PhotoEngine.extract img2 b2 := by
  rw [h1, h2]

/-- Claim C7 witness: two extract calls on the identical demo image and box
agree, and the produced descriptor is the concrete demo vector. -/
theorem extract_deterministic_witness :
    PhotoEngine.extract ⟨1, 1, [255]⟩ PhotoEngine.demoBox =
        PhotoEngine.extract ⟨1, 1, [255]⟩ PhotoEngine.demoBox ∧
    PhotoEngine.extract ⟨1, 1, [255]⟩ PhotoEngine.demoBox =
      .ok ⟨PhotoEngine.demoVec, PhotoEngine.demoBox⟩ :=
  ⟨extract_deterministic ⟨1, 1, [255]⟩ ⟨1, 1, [255]⟩ PhotoEngine.demoBox
      PhotoEngine.demoBox rfl rfl, rfl⟩

/-- Claim C8: under every interleaving of atomic record publications and
snapshot reads on one event's index, each record a snapshot observes carries
the full published descriptor set of its photo — a record is fully present or
fully absent — and hence every query result photo_id has a fully published
descriptor set. -/
theorem snapshot_never_observes_incomplete (src : Nat → List PhotoEngine.FaceDescriptor)
    (sched : List PhotoEngine.Step) (snap : List PhotoEngine.PhotoRec)
    (rec : PhotoEngine.PhotoRec) (qv : List Int) (thr : Nat)
    (m : PhotoEngine.MatchResult)
    (h1 : snap ∈ PhotoEngine.runSched src [] sched) (h2 : rec ∈ snap)
    (h3 : m ∈ PhotoEngine.matchPhotos qv snap thr) :
    rec.faces = src rec.photo_id ∧
    ∃ rec2, rec2 ∈ snap ∧ rec2.photo_id = m.photo_id ∧
      rec2.faces = src rec2.photo_id := by
  have hinv := PhotoEngine.runSched_inv src sched []
    (fun r hr => absurd hr (List.not_mem_nil r)) snap h1
  refine ⟨hinv rec h2, ?_⟩
  obtain ⟨rec2, hrec2, hid, _⟩ := PhotoEngine.exists_of_mem_candidates
    (PhotoEngine.mem_candidates_of_mem_matchPhotos h3)
  exact ⟨rec2, hrec2, hid, hinv rec2 hrec2⟩

/-- Claim C8 witness: in the concrete schedule write-then-read, the observed
snapshot holds photo 1 with its full demo descriptor set, and the concrete
match for photo 1 references a fully published record. -/
theorem snapshot_never_observes_incomplete_witness :
    (PhotoEngine.PhotoRec.mk 1 [PhotoEngine.demoFd]).faces = PhotoEngine.demoSrc 1 ∧
    ∃ rec2, rec2 ∈ [PhotoEngine.PhotoRec.mk 1 [PhotoEngine.demoFd]] ∧
      rec2.photo_id = (PhotoEngine.MatchResult.mk 1 100).photo_id ∧
      rec2.faces = PhotoEngine.demoSrc rec2.photo_id :=
  snapshot_never_observes_incomplete PhotoEngine.demoSrc
    [.write 1, .read] [⟨1, [PhotoEngine.demoFd]⟩] ⟨1, [PhotoEngine.demoFd]⟩
    PhotoEngine.demoVec 50 ⟨1, 100⟩ (by decide) (by decide) (by decide)

/-- Claim C9: with a non-empty displayed photo list and direction plus or minus
one, navigatePhoto always selects an element of that list; the computed index
stays within bounds even when the selected photo is absent from the list
(lookup index -1), stepping forward from the last photo wraps to index 0, and
stepping backward from the first photo wraps to the last index. -/
theorem navigatePhoto_stays_in_list (st : Frontend.CustomerState) (sel : Frontend.Photo)
    (d : Int) (h1 : st.selectedPhoto = some sel)
    (h2 : Frontend.displayPhotos st ≠ []) (h3 : d = 1 ∨ d = -1) :
    (∃ p, (Frontend.navigatePhoto st d).selectedPhoto = some p ∧
        p ∈ Frontend.displayPhotos st) ∧
    (0 ≤ Frontend.navIndex (Frontend.displayPhotos st).length
        (Frontend.jsFindIndex (Frontend.displayPhotos st) sel.id) d ∧
      Frontend.navIndex (Frontend.displayPhotos st).length
        (Frontend.jsFindIndex (Frontend.displayPhotos st) sel.id) d <
        ((Frontend.displayPhotos st).length : Int)) ∧
    (Frontend.jsFindIndex (Frontend.displayPhotos st) sel.id =
        ((Frontend.displayPhotos st).length : Int) - 1 → d = 1 →
      Frontend.navIndex (Frontend.displayPhotos st).length
        (Frontend.jsFindIndex (Frontend.displayPhotos st) sel.id) d = 0) ∧
    (Frontend.jsFindIndex (Frontend.displayPhotos st) sel.id = 0 → d = -1 →
      Frontend.navIndex (Frontend.displayPhotos st).length
        (Frontend.jsFindIndex (Frontend.displayPhotos st) sel.id) d =
        ((Frontend.displayPhotos st).length : Int) - 1) := by
  have hlen : 1 ≤ (Frontend.displayPhotos st).length :=
    List.length_pos.mpr h2
  have hb := Frontend.navIndex_bounds (Frontend.displayPhotos st).length
    (Frontend.jsFindIndex (Frontend.displayPhotos st) sel.id) d hlen
  refine ⟨?_, hb, ?_, ?_⟩
  · have hlt : (Frontend.navIndex (Frontend.displayPhotos st).length
        (Frontend.jsFindIndex (Frontend.displayPhotos st) sel.id) d).toNat <
        (Frontend.displayPhotos st).length := by omega
    refine ⟨(Frontend.displayPhotos st).getD
      (Frontend.navIndex (Frontend.displayPhotos st).length
        (Frontend.jsFindIndex (Frontend.displayPhotos st) sel.id) d).toNat sel, ?_, ?_⟩
    · simp only [Frontend.navigatePhoto, h1]
    · rw [List.getD_eq_getElem (Frontend.displayPhotos st) sel hlt]
      exact List.getElem_mem hlt
  · intro hcur hd
    subst hd
    rw [hcur]
    unfold Frontend.navIndex Frontend.jsClampLow Frontend.jsClampHigh
    split_ifs <;> omega
  · intro hcur hd
    subst hd
    rw [hcur]
    unfold Frontend.navIndex Frontend.jsClampLow Frontend.jsClampHigh
    split_ifs <;> omega

/-- Claim C9 witness: in a two-photo gallery with the second photo selected,
stepping forward wraps to the first photo, and the selected photo stays an
element of the displayed list. -/
theorem navigatePhoto_stays_in_list_witness :
    (∃ p, (Frontend.navigatePhoto
          ⟨[⟨1, none⟩, ⟨2, none⟩], none, some ⟨2, none⟩, false⟩ 1).selectedPhoto = some p ∧
        p ∈ Frontend.displayPhotos ⟨[⟨1, none⟩, ⟨2, none⟩], none, some ⟨2, none⟩, false⟩) ∧
    (0 ≤ Frontend.navIndex
        (Frontend.displayPhotos ⟨[⟨1, none⟩, ⟨2, none⟩], none, some ⟨2, none⟩, false⟩).length
        (Frontend.jsFindIndex
          (Frontend.displayPhotos ⟨[⟨1, none⟩, ⟨2, none⟩], none, some ⟨2, none⟩, false⟩)
          (Frontend.Photo.mk 2 none).id) 1 ∧
      Frontend.navIndex
        (Frontend.displayPhotos ⟨[⟨1, none⟩, ⟨2, none⟩], none, some ⟨2, none⟩, false⟩).length
        (Frontend.jsFindIndex
          (Frontend.displayPhotos ⟨[⟨1, none⟩, ⟨2, none⟩], none, some ⟨2, none⟩, false⟩)
          (Frontend.Photo.mk 2 none).id) 1 <
        ((Frontend.displayPhotos ⟨[⟨1, none⟩, ⟨2, none⟩], none, some ⟨2, none⟩, false⟩).length : Int)) ∧
    (Frontend.jsFindIndex
        (Frontend.displayPhotos ⟨[⟨1, none⟩, ⟨2, none⟩], none, some ⟨2, none⟩, false⟩)
        (Frontend.Photo.mk 2 none).id =
        ((Frontend.displayPhotos ⟨[⟨1, none⟩, ⟨2, none⟩], none, some ⟨2, none⟩, false⟩).length : Int) - 1 →
      (1 : Int) = 1 →
      Frontend.navIndex
        (Frontend.displayPhotos ⟨[⟨1, none⟩, ⟨2, none⟩], none, some ⟨2, none⟩, false⟩).length
        (Frontend.jsFindIndex
          (Frontend.displayPhotos ⟨[⟨1, none⟩, ⟨2, none⟩], none, some ⟨2, none⟩, false⟩)
          (Frontend.Photo.mk 2 none).id) 1 = 0) ∧
    (Frontend.jsFindIndex
        (Frontend.displayPhotos ⟨[⟨1, none⟩, ⟨2, none⟩], none, some ⟨2, none⟩, false⟩)
        (Frontend.Photo.mk 2 none).id = 0 → (1 : Int) = -1 →
      Frontend.navIndex
        (Frontend.displayPhotos ⟨[⟨1, none⟩, ⟨2, none⟩], none, some ⟨2, none⟩, false⟩).length
        (Frontend.jsFindIndex
          (Frontend.displayPhotos ⟨[⟨1, none⟩, ⟨2, none⟩], none, some ⟨2, none⟩, false⟩)
          (Frontend.Photo.mk 2 none).id) 1 =
        ((Frontend.displayPhotos ⟨[⟨1, none⟩, ⟨2, none⟩], none, some ⟨2, none⟩, false⟩).length : Int) - 1) :=
  navigatePhoto_stays_in_list ⟨[⟨1, none⟩, ⟨2, none⟩], none, some ⟨2, none⟩, false⟩
    ⟨2, none⟩ 1 (by decide) (by decide) (Or.inl rfl)

/-- Claim C10: after a successful search with zero matches the customer page
shows the empty matched set and renders the no-matching-photos state — a
non-null empty result array still overrides the unfiltered photos list — while
the error path and lightbox navigation never change matchedPhotos, and only
clearSearch resets it to null, restoring the full gallery. -/
theorem empty_match_overrides_gallery (st : Frontend.CustomerState)
    (result : List Frontend.Photo) (d : Int) :
    Frontend.displayPhotos (Frontend.searchSuccess st []) = [] ∧
    Frontend.galleryView (Frontend.searchSuccess st []) = .noMatchesFound ∧
    Frontend.displayPhotos (Frontend.searchSuccess st result) = result ∧
    Frontend.displayPhotos (Frontend.clearSearch st) = st.photos ∧
    (Frontend.searchFailure st).matchedPhotos = st.matchedPhotos ∧
    (Frontend.navigatePhoto st d).matchedPhotos = st.matchedPhotos ∧
    (Frontend.clearSearch st).matchedPhotos = none := by
  refine ⟨rfl, rfl, rfl, rfl, rfl, ?_, rfl⟩
  unfold Frontend.navigatePhoto
  cases st.selectedPhoto <;> rfl
